import Mathlib

/-!
Shallow embedding of the blogicum application (blog/models.py, blog/views.py)
and the Django library behaviour it relies on (`django.core.paginator`),
together with theorems settling the specification claims about data
visibility, pagination, authorization and error handling.

Conventions of the embedding:
* timestamps are natural numbers (`pub_date`, `created_at`, `now`);
* database rows are structure values held in lists inside a `Store`;
* foreign keys are ids (`Nat`), nullable ones are `Option Nat`;
* the requesting actor is `Option Nat` (`none` = anonymous user,
  `some uid` = authenticated user with id `uid`);
* Django form validation (`form.is_valid()`) is an oracle: submitted form
  data carries a `valid` flag, since the validation rules themselves live
  in the framework, not in this repository;
* view handlers are pure functions from (store, actor, request data) to
  (new store, response); `post_detail` returns `Except String Response`
  because one of its paths raises an uncaught `AttributeError`.
-/

deriving instance DecidableEq for Except

namespace Blogicum

/-- A user row (external identity: `django.contrib.auth`); the handlers only
use `id` and `username`. -/
structure User where
  id : Nat
  username : String
  deriving Repr, DecidableEq

/-- blog/models.py `Category(Published)`: publication flag from the abstract
`Published` base plus title/description/slug. -/
structure Category where
  id : Nat
  title : String
  description : String
  slug : String
  is_published : Bool
  created_at : Nat
  deriving Repr, DecidableEq

/-- blog/models.py `Location(Published)`. -/
structure Location where
  id : Nat
  name : String
  is_published : Bool
  created_at : Nat
  deriving Repr, DecidableEq

/-- blog/models.py `Post(Published)`: `author` is a mandatory FK to User,
`location` and `category` are nullable FKs (SET_NULL), `image` is optional. -/
structure Post where
  id : Nat
  title : String
  text : String
  pub_date : Nat
  author : Nat
  location : Option Nat
  category : Option Nat
  image : Option String
  is_published : Bool
  created_at : Nat
  deriving Repr, DecidableEq

/-- blog/models.py `Comment`: mandatory FKs to Post and User. -/
structure Comment where
  id : Nat
  text : String
  post : Nat
  author : Nat
  created_at : Nat
  deriving Repr, DecidableEq

/-- The relational store backing the application. -/
structure Store where
  users : List User
  categories : List Category
  locations : List Location
  posts : List Post
  comments : List Comment
  deriving Repr, DecidableEq

/-- Resolve a (non-null) category foreign key. -/
def findCategory (s : Store) (cid : Nat) : Option Category :=
  s.categories.find? (fun c => c.id == cid)

/-- `get_object_or_404(Post, id=post_id)` / `(Post, pk=id)`: lookup by id. -/
def findPostById (s : Store) (pid : Nat) : Option Post :=
  s.posts.find? (fun p => p.id == pid)

/-- `get_object_or_404(Comment, id=comment_id)`. -/
def findCommentById (s : Store) (cid : Nat) : Option Comment :=
  s.comments.find? (fun c => c.id == cid)

/-- `get_object_or_404(User, username=username)`. -/
def findUserByName (s : Store) (username : String) : Option User :=
  s.users.find? (fun u => u.username == username)

/-- `get_object_or_404(Category, slug=category_slug)` (default manager, so
unpublished categories are found too). -/
def findCategoryBySlug (s : Store) (slug : String) : Option Category :=
  s.categories.find? (fun c => c.slug == slug)

/-- `request.user.username` for an authenticated user id. -/
def usernameOf (s : Store) (uid : Nat) : String :=
  match s.users.find? (fun u => u.id == uid) with
  | none => ""
  | some u => u.username

/-- blog/models.py `PublishedManager.get_queryset` applied to `Post`:
`filter(is_published=True, category__is_published=True,
pub_date__lte=timezone.now())`.  The SQL join on `category__is_published`
excludes posts whose `category` FK is null (and, vacuously, dangling FKs). -/
def publishedPosts (s : Store) (now : Nat) : List Post :=
  s.posts.filter (fun p =>
    p.is_published &&
    (match p.category with
     | none => false
     | some cid =>
       match findCategory s cid with
       | none => false
       | some c => c.is_published) &&
    decide (p.pub_date ≤ now))

/-- The spec's public-visibility predicate, worded per §4.1/§8:
`post.is_published && post.category != null && post.category.is_published
&& post.pub_date <= now`.  Used to compare listings against the spec. -/
def specPubliclyVisible (s : Store) (now : Nat) (p : Post) : Bool :=
  p.is_published &&
  (match p.category with
   | none => false
   | some cid =>
     match findCategory s cid with
     | none => false
     | some c => c.is_published) &&
  decide (p.pub_date ≤ now)

/-- Insert a post into a list kept in descending `pub_date` order
(models the SQL `ORDER BY pub_date DESC`). -/
def insertDesc (p : Post) : List Post → List Post
  | [] => [p]
  | q :: qs => if q.pub_date < p.pub_date then p :: q :: qs else q :: insertDesc p qs

/-- `order_by('-pub_date')`: sort by publication date, newest first. -/
def sortByPubDateDesc (l : List Post) : List Post :=
  l.foldr insertDesc []

/-- Insert a comment into a list kept in ascending `created_at` order. -/
def insertAsc (c : Comment) : List Comment → List Comment
  | [] => [c]
  | d :: ds => if c.created_at < d.created_at then c :: d :: ds else d :: insertAsc c ds

/-- `Comment.Meta.ordering = ['created_at']`: oldest first. -/
def sortByCreatedAt (l : List Comment) : List Comment :=
  l.foldr insertAsc []

/-- `post.comments.all()` with the model's default ordering. -/
def postComments (s : Store) (pid : Nat) : List Comment :=
  sortByCreatedAt (s.comments.filter (fun c => c.post == pid))

/-- Comment count annotation `annotate(comment_count=Count('comments'))`;
it decorates each post and changes neither membership nor order of a
queryset, so the listing pipelines below carry plain posts. -/
def commentCount (s : Store) (pid : Nat) : Nat :=
  (s.comments.filter (fun c => c.post == pid)).length

/-- Models `django.core.paginator.Paginator.num_pages` with `orphans=0` and
`allow_empty_first_page=True`: `ceil(max(1, count) / per_page)`. -/
def numPages (count per_page : Nat) : Nat :=
  (max 1 count + per_page - 1) / per_page

/-- Models `Paginator.get_page`'s number handling: a missing or non-integer
page parameter (`PageNotAnInteger`) gives page 1; an integer below 1 or
above the last page (`EmptyPage`) gives the last page. -/
def getPageNumber (count per_page : Nat) (number : Option Int) : Nat :=
  match number with
  | none => 1
  | some n =>
    if n < 1 then numPages count per_page
    else if (numPages count per_page : Int) < n then numPages count per_page
    else n.toNat

/-- The slice `[(n-1)*per_page, n*per_page)` of a list. -/
def pageSlice (l : List Post) (per_page n : Nat) : List Post :=
  (l.drop ((n - 1) * per_page)).take per_page

/-- Models `Paginator(items, per_page).get_page(number).object_list`. -/
def getPage (l : List Post) (per_page : Nat) (number : Option Int) : List Post :=
  pageSlice l per_page (getPageNumber l.length per_page number)

/-- The responses the embedded handlers can produce. -/
inductive Response where
  /-- A rendered listing page (feed, category page, profile page). -/
  | listing (template : String) (posts : List Post)
  /-- The rendered post-detail page with the post's comments. -/
  | detailPage (post : Post) (comments : List Comment)
  /-- A (re-)rendered form page. -/
  | formPage (template : String)
  /-- The delete-post confirmation render (GET branch of `delete_post`). -/
  | confirmDeletePost (post : Post)
  /-- The delete-comment confirmation render (GET branch of `delete_comment`). -/
  | confirmDeleteComment (comment : Comment) (post : Post)
  /-- `redirect('blog:post_detail', id=...)`. -/
  | redirectPostDetail (post_id : Nat)
  /-- `redirect('blog:profile', username=...)`. -/
  | redirectProfile (username : String)
  /-- `@login_required` bouncing an anonymous actor to the login flow. -/
  | redirectLogin
  /-- `Http404`, as rendered by the framework's 404 handler. -/
  | notFound
  deriving Repr, DecidableEq

/-- The posts shown on a rendered listing page (empty for any other
response). -/
def renderedPosts : Response → List Post
  | .listing _ ps => ps
  | _ => []

/-- blog/views.py `index`: published posts, annotated, newest first,
paginated by 10. -/
def index (s : Store) (now : Nat) (page : Option Int) : Response :=
  .listing "blog/index.html"
    (getPage (sortByPubDateDesc (publishedPosts s now)) 10 page)

/-- blog/views.py `profile`: all of the owner's posts for the owner,
only published ones for everybody else; newest first; paginated by 10. -/
def profile (s : Store) (actor : Option Nat) (now : Nat) (username : String)
    (page : Option Int) : Response :=
  match findUserByName s username with
  | none => .notFound
  | some user =>
    let owner := actor == some user.id
    let posts :=
      if owner then s.posts.filter (fun p => p.author == user.id)
      else (publishedPosts s now).filter (fun p => p.author == user.id)
    .listing "blog/profile.html" (getPage (sortByPubDateDesc posts) 10 page)

/-- blog/views.py `category_posts`: 404 on unknown slug or unpublished
category, else the category's published posts, newest first, paginated. -/
def category_posts (s : Store) (now : Nat) (slug : String)
    (page : Option Int) : Response :=
  match findCategoryBySlug s slug with
  | none => .notFound
  | some category =>
    if !category.is_published then .notFound
    else
      .listing "blog/category.html"
        (getPage
          (sortByPubDateDesc
            ((publishedPosts s now).filter (fun p => p.category == some category.id)))
          10 page)

/-- blog/views.py `post_detail`: 404 on unknown id; the author always sees
the post; otherwise the checks `post.is_published`,
`post.pub_date <= timezone.now()` and `post.category.is_published` run in
that (short-circuiting) order — when `post.category` is null the last one
raises an uncaught `AttributeError`, modelled as `.error`. -/
def post_detail (s : Store) (actor : Option Nat) (now : Nat) (id : Nat) :
    Except String Response :=
  match findPostById s id with
  | none => .ok .notFound
  | some post =>
    let is_author := actor == some post.author
    if is_author then .ok (.detailPage post (postComments s post.id))
    else if !post.is_published then .ok .notFound
    else if !decide (post.pub_date ≤ now) then .ok .notFound
    else
      match post.category with
      | none => .error "AttributeError: NoneType object has no attribute is_published"
      | some cid =>
        match findCategory s cid with
        | none => .ok .notFound
        | some c =>
          if c.is_published then .ok (.detailPage post (postComments s post.id))
          else .ok .notFound

/-- The fields of blog/forms.py `PostForm` plus the framework's
`form.is_valid()` verdict on the submitted data. -/
structure PostFormData where
  title : String
  text : String
  pub_date : Nat
  location : Option Nat
  category : Option Nat
  image : Option String
  is_published : Bool
  valid : Bool
  deriving Repr, DecidableEq

/-- The field of blog/forms.py `CommentForm` plus the `is_valid()` verdict. -/
structure CommentFormData where
  text : String
  valid : Bool
  deriving Repr, DecidableEq

/-- A request to a post-form view: a GET, or a POST carrying form data. -/
inductive PostReq where
  | get
  | submit (d : PostFormData)
  deriving Repr, DecidableEq

/-- A request to a comment-form view. -/
inductive CommentReq where
  | get
  | submit (d : CommentFormData)
  deriving Repr, DecidableEq

/-- The HTTP method of a delete view request. -/
inductive Method where
  | get
  | post
  deriving Repr, DecidableEq

/-- `form.save()` on a `PostForm` bound to an existing post instance:
overwrite exactly the form's fields. -/
def applyPostForm (d : PostFormData) (p : Post) : Post :=
  { p with
    title := d.title, text := d.text, pub_date := d.pub_date,
    location := d.location, category := d.category, image := d.image,
    is_published := d.is_published }

/-- Update the post with the given id in place. -/
def updatePost (s : Store) (pid : Nat) (f : Post → Post) : Store :=
  { s with posts := s.posts.map (fun p => if p.id == pid then f p else p) }

/-- A fresh autoincrement id for a new post. -/
def nextPostId (s : Store) : Nat :=
  (s.posts.foldr (fun p m => max p.id m) 0) + 1

/-- A fresh autoincrement id for a new comment. -/
def nextCommentId (s : Store) : Nat :=
  (s.comments.foldr (fun c m => max c.id m) 0) + 1

/-- blog/views.py `create_post` (`@login_required`): on valid POST save a
new post authored by the actor and redirect to their profile; otherwise
render the (possibly bound) form. -/
def create_post (s : Store) (actor : Option Nat) (now : Nat) (req : PostReq) :
    Store × Response :=
  match actor with
  | none => (s, .redirectLogin)
  | some uid =>
    match req with
    | .submit d =>
      if d.valid then
        ({ s with posts := s.posts ++
            [{ id := nextPostId s, title := d.title, text := d.text,
               pub_date := d.pub_date, author := uid, location := d.location,
               category := d.category, image := d.image,
               is_published := d.is_published, created_at := now }] },
         .redirectProfile (usernameOf s uid))
      else (s, .formPage "blog/create.html")
    | .get => (s, .formPage "blog/create.html")

/-- blog/views.py `edit_post` (`@login_required`): 404 on unknown id; a
non-author is redirected to the detail view; a valid POST saves the form
and redirects; otherwise the form is rendered. -/
def edit_post (s : Store) (actor : Option Nat) (req : PostReq) (post_id : Nat) :
    Store × Response :=
  match actor with
  | none => (s, .redirectLogin)
  | some uid =>
    match findPostById s post_id with
    | none => (s, .notFound)
    | some post =>
      if uid != post.author then (s, .redirectPostDetail post_id)
      else
        match req with
        | .submit d =>
          if d.valid then
            (updatePost s post_id (applyPostForm d), .redirectPostDetail post_id)
          else (s, .formPage "blog/create.html")
        | .get => (s, .formPage "blog/create.html")

/-- blog/views.py `add_comment` (`@login_required`): 404 on unknown post id;
a valid POST appends a comment bound to the post and actor; in every other
case nothing is saved; the response is always a redirect to the detail
view (an invalid form is NOT re-rendered). -/
def add_comment (s : Store) (actor : Option Nat) (now : Nat) (req : CommentReq)
    (post_id : Nat) : Store × Response :=
  match actor with
  | none => (s, .redirectLogin)
  | some uid =>
    match findPostById s post_id with
    | none => (s, .notFound)
    | some _post =>
      match req with
      | .submit d =>
        if d.valid then
          ({ s with comments := s.comments ++
              [{ id := nextCommentId s, text := d.text, post := post_id,
                 author := uid, created_at := now }] },
           .redirectPostDetail post_id)
        else (s, .redirectPostDetail post_id)
      | .get => (s, .redirectPostDetail post_id)

/-- blog/views.py `edit_comment` (`@login_required`): 404 on unknown comment
id; a non-author is redirected to the detail view; a valid POST saves the
text and redirects; otherwise the comment form page is rendered. -/
def edit_comment (s : Store) (actor : Option Nat) (req : CommentReq)
    (post_id comment_id : Nat) : Store × Response :=
  match actor with
  | none => (s, .redirectLogin)
  | some uid =>
    match findCommentById s comment_id with
    | none => (s, .notFound)
    | some comment =>
      if uid != comment.author then (s, .redirectPostDetail post_id)
      else
        match req with
        | .submit d =>
          if d.valid then
            let cs := s.comments.map
              (fun c => if c.id == comment_id then { c with text := d.text } else c)
            ({ s with comments := cs }, .redirectPostDetail post_id)
          else (s, .formPage "blog/comment.html")
        | .get => (s, .formPage "blog/comment.html")

/-- Deleting a post cascades to its comments (`on_delete=models.CASCADE`). -/
def deletePostCascade (s : Store) (pid : Nat) : Store :=
  { s with
    posts := s.posts.filter (fun p => p.id != pid),
    comments := s.comments.filter (fun c => c.post != pid) }

/-- blog/views.py `delete_post` (`@login_required`): 404 on unknown id; a
non-author is redirected to the detail view; GET renders the confirmation
page; POST deletes the post and redirects to the actor's profile. -/
def delete_post (s : Store) (actor : Option Nat) (m : Method) (post_id : Nat) :
    Store × Response :=
  match actor with
  | none => (s, .redirectLogin)
  | some uid =>
    match findPostById s post_id with
    | none => (s, .notFound)
    | some post =>
      if uid != post.author then (s, .redirectPostDetail post_id)
      else
        match m with
        | .get => (s, .confirmDeletePost post)
        | .post => (deletePostCascade s post_id, .redirectProfile (usernameOf s uid))

/-- blog/views.py `delete_comment` (`@login_required`): 404 on unknown
comment or post id; a non-author is redirected; GET renders the
confirmation page; POST deletes the comment and redirects. -/
def delete_comment (s : Store) (actor : Option Nat) (m : Method)
    (post_id comment_id : Nat) : Store × Response :=
  match actor with
  | none => (s, .redirectLogin)
  | some uid =>
    match findCommentById s comment_id with
    | none => (s, .notFound)
    | some comment =>
      match findPostById s post_id with
      | none => (s, .notFound)
      | some post =>
        if uid != comment.author then (s, .redirectPostDetail post_id)
        else
          match m with
          | .get => (s, .confirmDeleteComment comment post)
          | .post =>
            ({ s with comments := s.comments.filter (fun c => c.id != comment_id) },
             .redirectPostDetail post_id)

/-- Forget a post's location reference (used to compare states that differ
only in location data). -/
def stripLocation (p : Post) : Post := { p with location := none }

/-- Erase location references from the posts a response displays. -/
def respStrip : Response → Response
  | .listing t ps => .listing t (ps.map stripLocation)
  | .detailPage p cs => .detailPage (stripLocation p) cs
  | .confirmDeletePost p => .confirmDeletePost (stripLocation p)
  | .confirmDeleteComment c p => .confirmDeleteComment c (stripLocation p)
  | r => r

/-- Rewrite a single post's location reference according to an assignment
of location references to post ids. -/
def relocate (f : Nat → Option Nat) (p : Post) : Post := { p with location := f p.id }

/-- Rewire every post's location reference (per post id) and replace the
locations table: the most general change touching only location data. -/
def withLocations (s : Store) (f : Nat → Option Nat) (ls : List Location) : Store :=
  { s with
    locations := ls,
    posts := s.posts.map (relocate f) }

/-! ### Concrete fixtures used by witnesses and counterexamples -/

/-- Fixture: a user who authors `demoPost`. -/
def demoAlice : User := ⟨1, "alice"⟩

/-- Fixture: a second user (authors `demoComment`, owns nothing else). -/
def demoBob : User := ⟨2, "bob"⟩

/-- Fixture: a published category. -/
def demoCat : Category := ⟨1, "Life", "about life", "life", true, 0⟩

/-- Fixture: an unpublished category. -/
def secretCat : Category := ⟨2, "Secret", "hidden topic", "secret", false, 0⟩

/-- Fixture: a published, past-dated post by alice in the published category. -/
def demoPost : Post := ⟨1, "Hello", "first post", 0, 1, none, some 1, none, true, 0⟩

/-- Fixture: an unpublished post by alice in the published category. -/
def hiddenPost : Post := ⟨3, "Draft", "unfinished", 0, 1, none, some 1, none, false, 0⟩

/-- Fixture: bob's comment on `demoPost`. -/
def demoComment : Comment := ⟨1, "nice", 1, 2, 0⟩

/-- Fixture store for the witnesses. -/
def demoStore : Store :=
  ⟨[demoAlice, demoBob], [demoCat, secretCat], [], [demoPost, hiddenPost], [demoComment]⟩

/-- Fixture: a published, past-dated post whose category reference is null. -/
def nullCatPost : Post := ⟨7, "NoCat", "uncategorized", 0, 1, none, none, none, true, 0⟩

/-- Fixture store exercising the null-category detail path. -/
def nullCatStore : Store :=
  ⟨[demoAlice, demoBob], [demoCat], [], [nullCatPost], []⟩

/-- Fixture: eleven distinct posts, so the paginator has two pages. -/
def elevenPosts : List Post :=
  (List.range 11).map (fun i => { demoPost with id := i })

/-- Fixture store whose feed has two pages (eleven visible posts). -/
def pagedStore : Store :=
  ⟨[demoAlice, demoBob], [demoCat], [], elevenPosts, []⟩

/-! ### Supporting lemmas: sorting -/

theorem sortByPubDateDesc_cons (p : Post) (l : List Post) :
    sortByPubDateDesc (p :: l) = insertDesc p (sortByPubDateDesc l) := rfl

theorem length_insertDesc (p : Post) (l : List Post) :
    (insertDesc p l).length = l.length + 1 := by
  induction l with
  | nil => rfl
  | cons q qs ih =>
    simp only [insertDesc]
    split <;> simp [ih]

theorem mem_insertDesc {x p : Post} {l : List Post} :
    x ∈ insertDesc p l ↔ x = p ∨ x ∈ l := by
  induction l with
  | nil => simp [insertDesc]
  | cons q qs ih =>
    simp only [insertDesc]
    split
    · simp
    · simp only [List.mem_cons, ih]
      tauto

theorem length_sortByPubDateDesc (l : List Post) :
    (sortByPubDateDesc l).length = l.length := by
  induction l with
  | nil => rfl
  | cons p ps ih =>
    rw [sortByPubDateDesc_cons, length_insertDesc, ih, List.length_cons]

theorem mem_sortByPubDateDesc {x : Post} {l : List Post} :
    x ∈ sortByPubDateDesc l ↔ x ∈ l := by
  induction l with
  | nil => exact Iff.rfl
  | cons p ps ih =>
    rw [sortByPubDateDesc_cons, mem_insertDesc, ih]
    simp

theorem pairwise_insertDesc {p : Post} {l : List Post}
    (h : l.Pairwise (fun a b => b.pub_date ≤ a.pub_date)) :
    (insertDesc p l).Pairwise (fun a b => b.pub_date ≤ a.pub_date) := by
  induction l with
  | nil => simp [insertDesc]
  | cons q qs ih =>
    rw [List.pairwise_cons] at h
    simp only [insertDesc]
    split
    · rename_i hlt
      refine List.pairwise_cons.mpr ⟨?_, List.pairwise_cons.mpr h⟩
      intro b hb
      rcases List.mem_cons.mp hb with rfl | hb
      · exact Nat.le_of_lt hlt
      · exact Nat.le_trans (h.1 b hb) (Nat.le_of_lt hlt)
    · rename_i hge
      refine List.pairwise_cons.mpr ⟨?_, ih h.2⟩
      intro b hb
      rcases mem_insertDesc.mp hb with rfl | hb
      · exact Nat.le_of_not_lt hge
      · exact h.1 b hb

theorem pairwise_sortByPubDateDesc (l : List Post) :
    (sortByPubDateDesc l).Pairwise (fun a b => b.pub_date ≤ a.pub_date) := by
  induction l with
  | nil => exact List.Pairwise.nil
  | cons p ps ih => exact sortByPubDateDesc_cons p ps ▸ pairwise_insertDesc ih

/-! ### Supporting lemmas: pagination -/

theorem numPages_pos (count : Nat) : 1 ≤ numPages count 10 := by
  unfold numPages
  omega

theorem getPageNumber_bounds (count : Nat) (pn : Option Int) :
    1 ≤ getPageNumber count 10 pn ∧ getPageNumber count 10 pn ≤ numPages count 10 := by
  have hnp := numPages_pos count
  cases pn with
  | none => exact ⟨Nat.le_refl 1, hnp⟩
  | some n =>
    simp only [getPageNumber]
    by_cases h1 : n < 1
    · rw [if_pos h1]
      exact ⟨hnp, Nat.le_refl _⟩
    · rw [if_neg h1]
      by_cases h2 : (numPages count 10 : Int) < n
      · rw [if_pos h2]
        exact ⟨hnp, Nat.le_refl _⟩
      · rw [if_neg h2]
        constructor <;> omega

theorem getPageNumber_of_valid (count n : Nat) (h1 : 1 ≤ n)
    (h2 : n ≤ numPages count 10) :
    getPageNumber count 10 (some (n : Int)) = n := by
  simp only [getPageNumber]
  rw [if_neg (by omega), if_neg (by omega)]
  omega

theorem mem_of_mem_getPage {x : Post} {l : List Post} {pn : Option Int}
    (h : x ∈ getPage l 10 pn) : x ∈ l :=
  List.mem_of_mem_drop (List.mem_of_mem_take h)

theorem exists_page_of_mem {x : Post} {l : List Post} (h : x ∈ l) :
    ∃ n : Nat, x ∈ getPage l 10 (some (n : Int)) := by
  obtain ⟨i, hi, rfl⟩ := List.mem_iff_getElem.mp h
  refine ⟨i / 10 + 1, ?_⟩
  have hb : i / 10 + 1 ≤ numPages l.length 10 := by unfold numPages; omega
  rw [getPage, getPageNumber_of_valid _ _ (by omega) hb]
  unfold pageSlice
  have he : (i / 10 + 1 - 1) * 10 = i / 10 * 10 := by omega
  rw [he]
  have htl : i % 10 < ((l.drop (i / 10 * 10)).take 10).length := by
    rw [List.length_take, List.length_drop]
    omega
  have hv : ((l.drop (i / 10 * 10)).take 10)[i % 10] = l[i] := by
    rw [List.getElem_take, List.getElem_drop]
    congr 1
    omega
  exact hv ▸ List.getElem_mem htl

theorem length_getPage_of_lt {l : List Post} {n : Nat} (h1 : 1 ≤ n)
    (h2 : n < numPages l.length 10) :
    (getPage l 10 (some (n : Int))).length = 10 := by
  rw [getPage, getPageNumber_of_valid _ _ h1 (Nat.le_of_lt h2)]
  unfold pageSlice
  rw [List.length_take, List.length_drop]
  unfold numPages at h2
  omega

/-! ### Supporting lemmas: the visibility filter -/

theorem publishedPosts_eq_filter_spec (s : Store) (now : Nat) :
    publishedPosts s now = s.posts.filter (specPubliclyVisible s now) := rfl

theorem mem_publishedPosts {s : Store} {now : Nat} {p : Post} :
    p ∈ publishedPosts s now ↔ p ∈ s.posts ∧ specPubliclyVisible s now p = true := by
  rw [publishedPosts_eq_filter_spec]
  exact List.mem_filter

theorem exists_page_iff_mem {x : Post} {l : List Post} :
    (∃ n : Nat, x ∈ getPage (sortByPubDateDesc l) 10 (some (n : Int))) ↔ x ∈ l := by
  constructor
  · rintro ⟨n, hn⟩
    exact mem_sortByPubDateDesc.mp (mem_of_mem_getPage hn)
  · intro h
    exact exists_page_of_mem (mem_sortByPubDateDesc.mpr h)

/-! ### Claim theorems -/

/-- C1: a post is shown to a viewer who is not its author — on some page of
the feed, of its category's page, or of its author's profile page viewed by
a non-owner — if and only if the post is published, its category reference
is non-null, that category is published, and its `pub_date` is not in the
future (`specPubliclyVisible`). -/
theorem C1_public_listing_inclusion
    (s : Store) (now : Nat) (p : Post) (u : User) (c : Category) (actor : Option Nat)
    (hp : p ∈ s.posts)
    (hu : findUserByName s u.username = some u)
    (hau : p.author = u.id)
    (hactor : actor ≠ some u.id) :
    ((∃ n : Nat, p ∈ renderedPosts (index s now (some (n : Int)))) ↔
      specPubliclyVisible s now p = true) ∧
    ((∃ n : Nat, p ∈ renderedPosts (profile s actor now u.username (some (n : Int)))) ↔
      specPubliclyVisible s now p = true) ∧
    (p.category = some c.id → findCategory s c.id = some c →
      findCategoryBySlug s c.slug = some c →
      ((∃ n : Nat, p ∈ renderedPosts (category_posts s now c.slug (some (n : Int)))) ↔
        specPubliclyVisible s now p = true)) := by
  refine ⟨?_, ?_, ?_⟩
  · simp only [index, renderedPosts]
    rw [exists_page_iff_mem, mem_publishedPosts]
    exact ⟨fun h => h.2, fun h => ⟨hp, h⟩⟩
  · have hown : (actor == some u.id) = false := beq_eq_false_iff_ne.mpr hactor
    simp only [profile, hu, hown, Bool.false_eq_true, if_false, renderedPosts]
    rw [exists_page_iff_mem, List.mem_filter, mem_publishedPosts]
    constructor
    · exact fun h => h.1.2
    · exact fun h => ⟨⟨hp, h⟩, beq_iff_eq.mpr hau⟩
  · intro hcat hcid hslug
    by_cases hcpub : c.is_published = true
    · simp only [category_posts, hslug, hcpub, Bool.not_true, Bool.false_eq_true,
        if_false, renderedPosts]
      rw [exists_page_iff_mem, List.mem_filter, mem_publishedPosts]
      constructor
      · exact fun h => h.1.2
      · exact fun h => ⟨⟨hp, h⟩, beq_iff_eq.mpr hcat⟩
    · have hfalse : specPubliclyVisible s now p = false := by
        simp [specPubliclyVisible, hcat, hcid,
          Bool.eq_false_iff.mpr (fun h => hcpub h)]
      simp [category_posts, hslug, Bool.eq_false_iff.mpr (fun h => hcpub h),
        renderedPosts, hfalse]

/-- C1 witness: `demoPost` (published, past-dated, in the published category
`demoCat`) at `now = 5`, viewed by bob. -/
theorem C1_public_listing_inclusion_witness :
    (demoPost ∈ demoStore.posts ∧
     findUserByName demoStore "alice" = some demoAlice ∧
     demoPost.author = demoAlice.id ∧
     (some 2 : Option Nat) ≠ some demoAlice.id ∧
     demoPost.category = some demoCat.id ∧
     findCategory demoStore demoCat.id = some demoCat ∧
     findCategoryBySlug demoStore demoCat.slug = some demoCat) ∧
    ((∃ n : Nat, demoPost ∈ renderedPosts (index demoStore 5 (some (n : Int)))) ↔
      specPubliclyVisible demoStore 5 demoPost = true) ∧
    ((∃ n : Nat,
        demoPost ∈ renderedPosts (profile demoStore (some 2) 5 "alice" (some (n : Int)))) ↔
      specPubliclyVisible demoStore 5 demoPost = true) ∧
    ((∃ n : Nat,
        demoPost ∈ renderedPosts (category_posts demoStore 5 "life" (some (n : Int)))) ↔
      specPubliclyVisible demoStore 5 demoPost = true) := by
  have h := C1_public_listing_inclusion demoStore 5 demoPost demoAlice demoCat (some 2)
    (by decide) (by decide) (by decide) (by decide)
  exact ⟨⟨by decide, by decide, by decide, by decide, by decide, by decide, by decide⟩,
    h.1, h.2.1, h.2.2 (by decide) (by decide) (by decide)⟩

/-- C2: the author of a post always sees it, regardless of `is_published`,
category publication and `pub_date`: the detail view renders the post for
its author, and the post appears on some page of the author's own profile
listing. -/
theorem C2_author_always_sees (s : Store) (now : Nat) (p : Post) (u : User)
    (hfind : findPostById s p.id = some p)
    (hu : findUserByName s u.username = some u)
    (hau : p.author = u.id) :
    post_detail s (some p.author) now p.id =
      .ok (.detailPage p (postComments s p.id)) ∧
    ∃ n : Nat, p ∈ renderedPosts (profile s (some u.id) now u.username (some (n : Int))) := by
  constructor
  · simp [post_detail, hfind]
  · simp only [profile, hu, beq_self_eq_true, if_true, renderedPosts]
    exact exists_page_of_mem (mem_sortByPubDateDesc.mpr
      (List.mem_filter.mpr ⟨List.mem_of_find?_eq_some hfind, beq_iff_eq.mpr hau⟩))

/-- C2 witness: `hiddenPost` is unpublished, yet alice (its author) gets the
detail page and sees it in her own profile listing. -/
theorem C2_author_always_sees_witness :
    (findPostById demoStore hiddenPost.id = some hiddenPost ∧
     findUserByName demoStore "alice" = some demoAlice ∧
     hiddenPost.author = demoAlice.id) ∧
    post_detail demoStore (some hiddenPost.author) 5 hiddenPost.id =
      .ok (.detailPage hiddenPost (postComments demoStore hiddenPost.id)) ∧
    (∃ n : Nat,
      hiddenPost ∈ renderedPosts (profile demoStore (some 1) 5 "alice" (some (n : Int)))) := by
  have h := C2_author_always_sees demoStore 5 hiddenPost demoAlice
    (by decide) (by decide) (by decide)
  exact ⟨⟨by decide, by decide, by decide⟩, h.1, h.2⟩

/-- C3: for `nullCatPost` (published, past-dated, `category = null`) the
spec says a non-author's detail request must end in NotFound without
dereferencing the null category; the code instead evaluates
`post.category.is_published` on `None` and raises an uncaught
`AttributeError` (an HTTP 500), so the code contradicts the spec's intended
clean NotFound. -/
theorem C3_null_category_detail_error :
    specPubliclyVisible nullCatStore 0 nullCatPost = false ∧
    nullCatPost ∈ nullCatStore.posts ∧
    post_detail nullCatStore none 0 7 =
      .error "AttributeError: NoneType object has no attribute is_published" ∧
    post_detail nullCatStore none 0 7 ≠ .ok .notFound := by decide

/-- C4 counterexample: with eleven items (two pages), `get_page` sends page
number 0 to the LAST page, not to page 1 as the claim states. -/
theorem C4_counterexample_page_zero_is_last :
    getPage elevenPosts 10 (some 0) ≠ getPage elevenPosts 10 (some 1) ∧
    getPage elevenPosts 10 (some 0) = getPage elevenPosts 10 (some 2) := by decide

/-- C4 (amended): a page number at most 0 — like any page number beyond the
last page — yields the LAST page; a missing (or non-integer) page number
yields page 1; the resolved page number is always between 1 and the number
of pages, so no request errors and no invalid page is produced. -/
theorem C4_pagination_clamps (l : List Post) (n : Int) :
    (n ≤ 0 → getPage l 10 (some n) = pageSlice l 10 (numPages l.length 10)) ∧
    ((numPages l.length 10 : Int) < n →
      getPage l 10 (some n) = pageSlice l 10 (numPages l.length 10)) ∧
    getPage l 10 none = pageSlice l 10 1 ∧
    1 ≤ getPageNumber l.length 10 (some n) ∧
    getPageNumber l.length 10 (some n) ≤ numPages l.length 10 := by
  refine ⟨?_, ?_, rfl, (getPageNumber_bounds _ _).1, (getPageNumber_bounds _ _).2⟩
  · intro hn
    rw [getPage]
    congr 1
    simp only [getPageNumber]
    rw [if_pos (by omega)]
  · intro hn
    rw [getPage]
    congr 1
    simp only [getPageNumber]
    rw [if_neg (by omega), if_pos hn]

/-- C4 witness: the amended clamping at page numbers 0 (below range) and 3
(above the two pages of `elevenPosts`). -/
theorem C4_pagination_clamps_witness :
    ((0 : Int) ≤ 0 ∧
      getPage elevenPosts 10 (some 0) =
        pageSlice elevenPosts 10 (numPages elevenPosts.length 10)) ∧
    ((numPages elevenPosts.length 10 : Int) < 3 ∧
      getPage elevenPosts 10 (some 3) =
        pageSlice elevenPosts 10 (numPages elevenPosts.length 10)) :=
  ⟨⟨by decide, (C4_pagination_clamps elevenPosts 0).1 (by decide)⟩,
   ⟨by decide, (C4_pagination_clamps elevenPosts 3).2.1 (by decide)⟩⟩

/-- C5: on every listing endpoint the page delivered for a valid page
number `n` is exactly the slice `[(n-1)*10, n*10)` of the candidate set
that was first visibility-filtered, then sorted by `pub_date` descending;
consequently every page before the last holds exactly 10 posts, and the
candidate set is sorted newest-first. -/
theorem C5_page_is_slice_of_sorted_filtered
    (s : Store) (now : Nat) (u : User) (c : Category) (actor : Option Nat) (n : Nat)
    (hu : findUserByName s u.username = some u)
    (hslug : findCategoryBySlug s c.slug = some c)
    (hcpub : c.is_published = true)
    (h1 : 1 ≤ n) :
    (n ≤ numPages (publishedPosts s now).length 10 →
      renderedPosts (index s now (some (n : Int))) =
        pageSlice (sortByPubDateDesc (publishedPosts s now)) 10 n) ∧
    (n < numPages (publishedPosts s now).length 10 →
      (renderedPosts (index s now (some (n : Int)))).length = 10) ∧
    (sortByPubDateDesc (publishedPosts s now)).Pairwise
      (fun a b => b.pub_date ≤ a.pub_date) ∧
    (n ≤ numPages ((publishedPosts s now).filter
        (fun p => p.category == some c.id)).length 10 →
      renderedPosts (category_posts s now c.slug (some (n : Int))) =
        pageSlice (sortByPubDateDesc ((publishedPosts s now).filter
          (fun p => p.category == some c.id))) 10 n) ∧
    (n < numPages ((publishedPosts s now).filter
        (fun p => p.category == some c.id)).length 10 →
      (renderedPosts (category_posts s now c.slug (some (n : Int)))).length = 10) ∧
    (n ≤ numPages ((if actor == some u.id then
          s.posts.filter (fun p => p.author == u.id)
        else (publishedPosts s now).filter (fun p => p.author == u.id))).length 10 →
      renderedPosts (profile s actor now u.username (some (n : Int))) =
        pageSlice (sortByPubDateDesc (if actor == some u.id then
            s.posts.filter (fun p => p.author == u.id)
          else (publishedPosts s now).filter (fun p => p.author == u.id))) 10 n) ∧
    (n < numPages ((if actor == some u.id then
          s.posts.filter (fun p => p.author == u.id)
        else (publishedPosts s now).filter (fun p => p.author == u.id))).length 10 →
      (renderedPosts (profile s actor now u.username (some (n : Int)))).length = 10) := by
  refine ⟨?_, ?_, pairwise_sortByPubDateDesc _, ?_, ?_, ?_, ?_⟩
  · intro h2
    simp only [index, renderedPosts, getPage]
    rw [length_sortByPubDateDesc, getPageNumber_of_valid _ _ h1 h2]
  · intro h2
    simp only [index, renderedPosts]
    exact length_getPage_of_lt h1 (by rw [length_sortByPubDateDesc]; exact h2)
  · intro h2
    simp only [category_posts, hslug, hcpub, Bool.not_true, Bool.false_eq_true,
      if_false, renderedPosts, getPage]
    rw [length_sortByPubDateDesc, getPageNumber_of_valid _ _ h1 h2]
  · intro h2
    simp only [category_posts, hslug, hcpub, Bool.not_true, Bool.false_eq_true,
      if_false, renderedPosts]
    exact length_getPage_of_lt h1 (by rw [length_sortByPubDateDesc]; exact h2)
  · intro h2
    simp only [profile, hu, renderedPosts, getPage]
    rw [length_sortByPubDateDesc, getPageNumber_of_valid _ _ h1 h2]
  · intro h2
    simp only [profile, hu, renderedPosts]
    exact length_getPage_of_lt h1 (by rw [length_sortByPubDateDesc]; exact h2)

/-- C5 witness: `pagedStore` has eleven visible posts (two pages); page 1 of
feed, category page and bob-viewed profile page is the first slice and
holds exactly 10 posts. -/
theorem C5_page_is_slice_of_sorted_filtered_witness :
    (findUserByName pagedStore "alice" = some demoAlice ∧
     findCategoryBySlug pagedStore "life" = some demoCat ∧
     demoCat.is_published = true ∧ 1 ≤ 1 ∧
     1 ≤ numPages (publishedPosts pagedStore 5).length 10 ∧
     1 < numPages (publishedPosts pagedStore 5).length 10) ∧
    renderedPosts (index pagedStore 5 (some (1 : Int))) =
      pageSlice (sortByPubDateDesc (publishedPosts pagedStore 5)) 10 1 ∧
    (renderedPosts (index pagedStore 5 (some (1 : Int)))).length = 10 ∧
    (renderedPosts (profile pagedStore (some 2) 5 "alice" (some (1 : Int)))).length = 10 := by
  have h := C5_page_is_slice_of_sorted_filtered pagedStore 5 demoAlice demoCat (some 2) 1
    (by decide) (by decide) (by decide) (by decide)
  exact ⟨⟨by decide, by decide, by decide, by decide, by decide, by decide⟩,
    h.1 (by decide), h.2.1 (by decide), h.2.2.2.2.2.2 (by decide)⟩

/-- C6: an authenticated actor who owns neither the post nor the comment
gets a plain redirect to the post's detail view from each of the four
edit/delete endpoints, and the store (every post, every comment, every
field) is left exactly as it was. -/
theorem C6_non_owner_mutation_is_noop_redirect
    (s : Store) (uid : Nat) (p : Post) (cm : Comment)
    (req : PostReq) (creq : CommentReq) (m m' : Method)
    (hp : findPostById s p.id = some p)
    (hcm : findCommentById s cm.id = some cm)
    (hnp : uid ≠ p.author)
    (hnc : uid ≠ cm.author) :
    edit_post s (some uid) req p.id = (s, .redirectPostDetail p.id) ∧
    delete_post s (some uid) m p.id = (s, .redirectPostDetail p.id) ∧
    edit_comment s (some uid) creq p.id cm.id = (s, .redirectPostDetail p.id) ∧
    delete_comment s (some uid) m' p.id cm.id = (s, .redirectPostDetail p.id) := by
  have hbp : (uid != p.author) = true := bne_iff_ne.mpr hnp
  have hbc : (uid != cm.author) = true := bne_iff_ne.mpr hnc
  refine ⟨?_, ?_, ?_, ?_⟩
  · simp [edit_post, hp, hbp]
  · simp [delete_post, hp, hbp]
  · simp [edit_comment, hcm, hbc]
  · simp [delete_comment, hcm, hp, hbc]

/-- C6 witness: bob (id 2) cannot touch alice's `demoPost`; a third user
(id 3) cannot touch bob's `demoComment`; both just get redirects. -/
theorem C6_non_owner_mutation_is_noop_redirect_witness :
    (findPostById demoStore demoPost.id = some demoPost ∧
     findCommentById demoStore demoComment.id = some demoComment ∧
     (3 : Nat) ≠ demoPost.author ∧ (3 : Nat) ≠ demoComment.author) ∧
    edit_post demoStore (some 3) .get demoPost.id =
      (demoStore, .redirectPostDetail demoPost.id) ∧
    delete_post demoStore (some 3) .post demoPost.id =
      (demoStore, .redirectPostDetail demoPost.id) ∧
    edit_comment demoStore (some 3) .get demoPost.id demoComment.id =
      (demoStore, .redirectPostDetail demoPost.id) ∧
    delete_comment demoStore (some 3) .post demoPost.id demoComment.id =
      (demoStore, .redirectPostDetail demoPost.id) := by
  have h := C6_non_owner_mutation_is_noop_redirect demoStore 3 demoPost demoComment
    .get .get .post .post (by decide) (by decide) (by decide) (by decide)
  exact ⟨⟨by decide, by decide, by decide, by decide⟩, h.1, h.2.1, h.2.2.1, h.2.2.2⟩

/-- C7 counterexample: `nullCatPost` exists and fails the visibility
predicate (null category), yet its detail response is NOT the NotFound
response — the handler errors out instead, so "exists but hidden" is not
always treated like "does not exist". -/
theorem C7_counterexample_null_category :
    nullCatPost ∈ nullCatStore.posts ∧
    specPubliclyVisible nullCatStore 0 nullCatPost = false ∧
    post_detail nullCatStore none 0 nullCatPost.id ≠ .ok .notFound := by decide

/-- C7 (amended): restricted to posts whose category reference is non-null,
a detail request for an existing-but-hidden post returns the same NotFound
response as a request for a missing post id; a category page request for an
existing-but-unpublished category returns the same NotFound as an unknown
slug. -/
theorem C7_hidden_matches_missing
    (s : Store) (now : Nat) (actor : Option Nat) (p : Post) (missingId : Nat)
    (slug : String) (c : Category) (pg : Option Int) :
    (findPostById s missingId = none →
      post_detail s actor now missingId = .ok .notFound) ∧
    (findPostById s p.id = some p → actor ≠ some p.author → p.category ≠ none →
      specPubliclyVisible s now p = false →
      post_detail s actor now p.id = .ok .notFound) ∧
    (findCategoryBySlug s slug = none → category_posts s now slug pg = .notFound) ∧
    (findCategoryBySlug s slug = some c → c.is_published = false →
      category_posts s now slug pg = .notFound) := by
  refine ⟨?_, ?_, ?_, ?_⟩
  · intro h
    simp [post_detail, h]
  · intro hp hactor hcat hvis
    have hauth : (actor == some p.author) = false := beq_eq_false_iff_ne.mpr hactor
    simp only [post_detail, hp, hauth, Bool.false_eq_true, if_false]
    obtain ⟨cid, hcid⟩ := Option.ne_none_iff_exists'.mp hcat
    by_cases hpub : p.is_published
    · by_cases hdate : p.pub_date ≤ now
      · simp only [specPubliclyVisible, hpub, hcid, decide_eq_true hdate,
          Bool.true_and, Bool.and_true] at hvis
        simp only [hpub, Bool.not_true, Bool.false_eq_true, if_false,
          decide_eq_true hdate, hcid]
        match hfc : findCategory s cid with
        | none => rfl
        | some cc =>
          rw [hfc] at hvis
          have hcc : cc.is_published = false := hvis
          simp [hcc]
      · simp [hdate]
    · simp [hpub]
  · intro h
    simp [category_posts, h]
  · intro hc hcpub
    simp [category_posts, hc, hcpub]

/-- C7 witness: a missing post id, the hidden (unpublished) `hiddenPost`,
a missing category slug, and the unpublished `secretCat` all give the same
NotFound response. -/
theorem C7_hidden_matches_missing_witness :
    (findPostById demoStore 99 = none ∧
     findPostById demoStore hiddenPost.id = some hiddenPost ∧
     (some 2 : Option Nat) ≠ some hiddenPost.author ∧
     hiddenPost.category ≠ none ∧
     specPubliclyVisible demoStore 5 hiddenPost = false ∧
     findCategoryBySlug demoStore "nope" = none ∧
     findCategoryBySlug demoStore "secret" = some secretCat ∧
     secretCat.is_published = false) ∧
    post_detail demoStore (some 2) 5 99 = .ok .notFound ∧
    post_detail demoStore (some 2) 5 hiddenPost.id = .ok .notFound ∧
    category_posts demoStore 5 "nope" (some 1) = .notFound ∧
    category_posts demoStore 5 "secret" (some 1) = .notFound := by
  have h₁ := C7_hidden_matches_missing demoStore 5 (some 2) hiddenPost 99 "nope"
    secretCat (some 1)
  have h₂ := C7_hidden_matches_missing demoStore 5 (some 2) hiddenPost 99 "secret"
    secretCat (some 1)
  exact ⟨⟨by decide, by decide, by decide, by decide, by decide, by decide,
      by decide, by decide⟩,
    h₁.1 (by decide),
    h₁.2.1 (by decide) (by decide) (by decide) (by decide),
    h₁.2.2.1 (by decide),
    h₂.2.2.2 (by decide) (by decide)⟩

/-- C8 counterexample: a comment-create request with invalid data is NOT
answered with a redisplayed form — `add_comment` answers with a redirect to
the post's detail view (though, as the claim says, no record is created). -/
theorem C8_counterexample_add_comment_redirects :
    add_comment demoStore (some 2) 5 (.submit ⟨"", false⟩) 1 =
      (demoStore, .redirectPostDetail 1) ∧
    (add_comment demoStore (some 2) 5 (.submit ⟨"", false⟩) 1).2 ≠
      .formPage "blog/comment.html" := by decide

/-- C8 (amended): on a validation failure no record is created or modified
anywhere; post create, post edit and comment edit redisplay the submitted
form (with the framework's field-level messages); comment create instead
redirects to the post's detail view without redisplaying the form. -/
theorem C8_invalid_submission_behaviour
    (s : Store) (now : Nat) (p : Post) (cm : Comment)
    (d : PostFormData) (e : CommentFormData) (uidO uidC uidAny : Nat)
    (hp : findPostById s p.id = some p)
    (hcm : findCommentById s cm.id = some cm)
    (hdv : d.valid = false)
    (hev : e.valid = false)
    (hop : uidO = p.author)
    (hoc : uidC = cm.author) :
    create_post s (some uidAny) now (.submit d) = (s, .formPage "blog/create.html") ∧
    edit_post s (some uidO) (.submit d) p.id = (s, .formPage "blog/create.html") ∧
    edit_comment s (some uidC) (.submit e) p.id cm.id =
      (s, .formPage "blog/comment.html") ∧
    add_comment s (some uidAny) now (.submit e) p.id =
      (s, .redirectPostDetail p.id) := by
  subst hop hoc
  refine ⟨?_, ?_, ?_, ?_⟩
  · simp [create_post, hdv]
  · simp [edit_post, hp, hdv]
  · simp [edit_comment, hcm, hev]
  · simp [add_comment, hp, hev]

/-- C8 witness: invalid submissions against `demoStore` — alice editing her
post, bob editing his comment, bob creating a post or comment — leave the
store untouched and produce the stated responses. -/
theorem C8_invalid_submission_behaviour_witness :
    (findPostById demoStore demoPost.id = some demoPost ∧
     findCommentById demoStore demoComment.id = some demoComment ∧
     (1 : Nat) = demoPost.author ∧ (2 : Nat) = demoComment.author) ∧
    create_post demoStore (some 2) 5
        (.submit ⟨"t", "x", 0, none, none, none, true, false⟩) =
      (demoStore, .formPage "blog/create.html") ∧
    edit_post demoStore (some 1)
        (.submit ⟨"t", "x", 0, none, none, none, true, false⟩) demoPost.id =
      (demoStore, .formPage "blog/create.html") ∧
    edit_comment demoStore (some 2) (.submit ⟨"", false⟩)
        demoPost.id demoComment.id =
      (demoStore, .formPage "blog/comment.html") ∧
    add_comment demoStore (some 2) 5 (.submit ⟨"", false⟩) demoPost.id =
      (demoStore, .redirectPostDetail demoPost.id) := by
  have h := C8_invalid_submission_behaviour demoStore 5 demoPost demoComment
    ⟨"t", "x", 0, none, none, none, true, false⟩ ⟨"", false⟩ 1 2 2
    (by decide) (by decide) (by decide) (by decide) (by decide) (by decide)
  exact ⟨⟨by decide, by decide, by decide, by decide⟩, h.1, h.2.1, h.2.2.1, h.2.2.2⟩

/-- C9: for the owner, the GET (confirmation) step of `delete_post` and
`delete_comment` returns the store exactly unchanged — every record and
field intact — and only the subsequent POST performs the deletion. -/
theorem C9_delete_confirmation_is_readonly
    (s : Store) (p : Post) (cm : Comment)
    (hp : findPostById s p.id = some p)
    (hcm : findCommentById s cm.id = some cm) :
    delete_post s (some p.author) .get p.id = (s, .confirmDeletePost p) ∧
    delete_comment s (some cm.author) .get p.id cm.id =
      (s, .confirmDeleteComment cm p) ∧
    delete_post s (some p.author) .post p.id =
      (deletePostCascade s p.id, .redirectProfile (usernameOf s p.author)) ∧
    (delete_comment s (some cm.author) .post p.id cm.id).1.comments =
      s.comments.filter (fun c => c.id != cm.id) := by
  refine ⟨?_, ?_, ?_, ?_⟩
  · simp [delete_post, hp]
  · simp [delete_comment, hcm, hp]
  · simp [delete_post, hp]
  · simp [delete_comment, hcm, hp]

/-- C9 witness: alice's GET on deleting `demoPost` and bob's GET on deleting
`demoComment` change nothing; their POSTs perform the deletions. -/
theorem C9_delete_confirmation_is_readonly_witness :
    (findPostById demoStore demoPost.id = some demoPost ∧
     findCommentById demoStore demoComment.id = some demoComment) ∧
    delete_post demoStore (some demoPost.author) .get demoPost.id =
      (demoStore, .confirmDeletePost demoPost) ∧
    delete_comment demoStore (some demoComment.author) .get
        demoPost.id demoComment.id =
      (demoStore, .confirmDeleteComment demoComment demoPost) ∧
    delete_post demoStore (some demoPost.author) .post demoPost.id =
      (deletePostCascade demoStore demoPost.id,
       .redirectProfile (usernameOf demoStore demoPost.author)) ∧
    (delete_comment demoStore (some demoComment.author) .post
        demoPost.id demoComment.id).1.comments =
      demoStore.comments.filter (fun c => c.id != demoComment.id) := by
  have h := C9_delete_confirmation_is_readonly demoStore demoPost demoComment
    (by decide) (by decide)
  exact ⟨⟨by decide, by decide⟩, h.1, h.2.1, h.2.2.1, h.2.2.2⟩

/-! ### Supporting lemmas: location data never enters the pipelines -/

theorem relocate_id (f : Nat → Option Nat) (p : Post) :
    (relocate f p).id = p.id := rfl

theorem relocate_author (f : Nat → Option Nat) (p : Post) :
    (relocate f p).author = p.author := rfl

theorem relocate_is_published (f : Nat → Option Nat) (p : Post) :
    (relocate f p).is_published = p.is_published := rfl

theorem relocate_pub_date (f : Nat → Option Nat) (p : Post) :
    (relocate f p).pub_date = p.pub_date := rfl

theorem relocate_category (f : Nat → Option Nat) (p : Post) :
    (relocate f p).category = p.category := rfl

theorem stripLocation_relocate (f : Nat → Option Nat) (p : Post) :
    stripLocation (relocate f p) = stripLocation p := rfl

theorem withLocations_posts (s : Store) (f : Nat → Option Nat) (ls : List Location) :
    (withLocations s f ls).posts = s.posts.map (relocate f) := rfl

theorem findUserByName_withLocations (s : Store) (f : Nat → Option Nat)
    (ls : List Location) (un : String) :
    findUserByName (withLocations s f ls) un = findUserByName s un := rfl

theorem findCategoryBySlug_withLocations (s : Store) (f : Nat → Option Nat)
    (ls : List Location) (slug : String) :
    findCategoryBySlug (withLocations s f ls) slug = findCategoryBySlug s slug := rfl

theorem findCategory_withLocations (s : Store) (f : Nat → Option Nat)
    (ls : List Location) (cid : Nat) :
    findCategory (withLocations s f ls) cid = findCategory s cid := rfl

theorem postComments_withLocations (s : Store) (f : Nat → Option Nat)
    (ls : List Location) (pid : Nat) :
    postComments (withLocations s f ls) pid = postComments s pid := rfl

theorem filter_map_relocate (f : Nat → Option Nat) (pr : Post → Bool)
    (hpr : ∀ p, pr (relocate f p) = pr p) (l : List Post) :
    (l.map (relocate f)).filter pr = (l.filter pr).map (relocate f) := by
  rw [List.filter_map]
  have h : pr ∘ relocate f = pr := funext hpr
  rw [h]

theorem publishedPosts_withLocations (s : Store) (f : Nat → Option Nat)
    (ls : List Location) (now : Nat) :
    publishedPosts (withLocations s f ls) now =
      (publishedPosts s now).map (relocate f) := by
  unfold publishedPosts
  rw [withLocations_posts, List.filter_map]
  rfl

theorem findPostById_withLocations (s : Store) (f : Nat → Option Nat)
    (ls : List Location) (pid : Nat) :
    findPostById (withLocations s f ls) pid =
      (findPostById s pid).map (relocate f) := by
  show ((withLocations s f ls).posts.find? _) = _
  rw [withLocations_posts, List.find?_map]
  rfl

theorem insertDesc_relocate (f : Nat → Option Nat) (p : Post) (l : List Post) :
    insertDesc (relocate f p) (l.map (relocate f)) =
      (insertDesc p l).map (relocate f) := by
  induction l with
  | nil => rfl
  | cons q qs ih =>
    simp only [List.map_cons, insertDesc, relocate_pub_date]
    split
    · simp
    · simp [ih]

theorem sortByPubDateDesc_map_relocate (f : Nat → Option Nat) (l : List Post) :
    sortByPubDateDesc (l.map (relocate f)) =
      (sortByPubDateDesc l).map (relocate f) := by
  induction l with
  | nil => rfl
  | cons p ps ih =>
    rw [List.map_cons, sortByPubDateDesc_cons, sortByPubDateDesc_cons, ih,
      insertDesc_relocate]

theorem getPage_map_relocate (f : Nat → Option Nat) (l : List Post)
    (pn : Option Int) :
    getPage (l.map (relocate f)) 10 pn = (getPage l 10 pn).map (relocate f) := by
  unfold getPage pageSlice
  rw [List.length_map, List.map_take, List.map_drop]

theorem map_stripLocation_map_relocate (f : Nat → Option Nat) (l : List Post) :
    (l.map (relocate f)).map stripLocation = l.map stripLocation := by
  rw [List.map_map]
  rfl

/-- C10: location data is dead to visibility — rewiring every post's
location reference arbitrarily and replacing the whole locations table
(publication flags included) changes nothing in the feed, the category
page, the profile page or the detail view, up to the posts' own (displayed)
location field itself. -/
theorem C10_location_never_affects_visibility
    (s : Store) (f : Nat → Option Nat) (ls : List Location) (now : Nat)
    (actor : Option Nat) (pg : Option Int) (pid : Nat) (slug username : String) :
    respStrip (index (withLocations s f ls) now pg) = respStrip (index s now pg) ∧
    respStrip (profile (withLocations s f ls) actor now username pg) =
      respStrip (profile s actor now username pg) ∧
    respStrip (category_posts (withLocations s f ls) now slug pg) =
      respStrip (category_posts s now slug pg) ∧
    (post_detail (withLocations s f ls) actor now pid).map respStrip =
      (post_detail s actor now pid).map respStrip := by
  refine ⟨?_, ?_, ?_, ?_⟩
  · simp only [index]
    rw [publishedPosts_withLocations, sortByPubDateDesc_map_relocate,
      getPage_map_relocate]
    simp only [respStrip]
    rw [map_stripLocation_map_relocate]
  · simp only [profile, findUserByName_withLocations]
    cases hu : findUserByName s username with
    | none => rfl
    | some u =>
      simp only []
      by_cases ho : (actor == some u.id) = true
      · simp only [ho, if_true, withLocations_posts]
        rw [filter_map_relocate f (fun p => p.author == u.id) (fun p => rfl),
          sortByPubDateDesc_map_relocate, getPage_map_relocate]
        simp only [respStrip]
        rw [map_stripLocation_map_relocate]
      · rw [Bool.not_eq_true] at ho
        simp only [ho, Bool.false_eq_true, if_false]
        rw [publishedPosts_withLocations,
          filter_map_relocate f (fun p => p.author == u.id) (fun p => rfl),
          sortByPubDateDesc_map_relocate, getPage_map_relocate]
        simp only [respStrip]
        rw [map_stripLocation_map_relocate]
  · simp only [category_posts, findCategoryBySlug_withLocations]
    cases hc : findCategoryBySlug s slug with
    | none => rfl
    | some c =>
      simp only []
      by_cases hcp : c.is_published = true
      · simp only [hcp, Bool.not_true, Bool.false_eq_true, if_false]
        rw [publishedPosts_withLocations,
          filter_map_relocate f (fun p => p.category == some c.id) (fun p => rfl),
          sortByPubDateDesc_map_relocate, getPage_map_relocate]
        simp only [respStrip]
        rw [map_stripLocation_map_relocate]
      · rw [Bool.not_eq_true] at hcp
        simp [hcp]
  · simp only [post_detail, findPostById_withLocations]
    cases hp : findPostById s pid with
    | none => rfl
    | some p =>
      by_cases ha : (actor == some p.author) = true
      · simp [Option.map_some', relocate_author, ha, postComments_withLocations,
          relocate_id, Except.map, respStrip, stripLocation_relocate]
      · rw [Bool.not_eq_true] at ha
        by_cases hpub : p.is_published = true
        · by_cases hdate : p.pub_date ≤ now
          · cases hcat : p.category with
            | none =>
              simp [Option.map_some', relocate_author, ha, relocate_is_published,
                hpub, relocate_pub_date, decide_eq_true hdate, relocate_category,
                hcat]
            | some cid =>
              cases hfc : findCategory s cid with
              | none =>
                simp [Option.map_some', relocate_author, ha, relocate_is_published,
                  hpub, relocate_pub_date, decide_eq_true hdate, relocate_category,
                  hcat, findCategory_withLocations, hfc]
              | some c =>
                by_cases hcp : c.is_published = true
                · simp [Option.map_some', relocate_author, ha, relocate_is_published,
                    hpub, relocate_pub_date, decide_eq_true hdate, relocate_category,
                    hcat, findCategory_withLocations, hfc, hcp, relocate_id,
                    postComments_withLocations, Except.map, respStrip,
                    stripLocation_relocate]
                · rw [Bool.not_eq_true] at hcp
                  simp [Option.map_some', relocate_author, ha, relocate_is_published,
                    hpub, relocate_pub_date, decide_eq_true hdate, relocate_category,
                    hcat, findCategory_withLocations, hfc, hcp]
          · have hd : decide (p.pub_date ≤ now) = false := decide_eq_false hdate
            simp [Option.map_some', relocate_author, ha, relocate_is_published,
              hpub, relocate_pub_date, hd]
        · rw [Bool.not_eq_true] at hpub
          simp [Option.map_some', relocate_author, ha, relocate_is_published, hpub]

end Blogicum
